import Mathlib

/-!
Shallow embedding of the voice-agent pipeline core
(main.py and the services modules: stt_service, llm_service,
tts_service, fallback_service).

Provider calls are modelled as oracles indexed by the attempt number:
attempt n of a stage observes the oracle at index n.  Each stage
function returns the tuple the Python function returns, paired with
the number of provider attempts actually made (the instrumentation
needed to state the retry-budget properties).

The retry loops (written in Python as `for attempt in range(max_retries + 1)`)
are embedded as structural recursion on the number of loop iterations
remaining (`fuel`); at an iteration with `fuel + 1` iterations remaining,
`attempt < max_retries` holds exactly when `fuel > 0`, and the `fuel = 0`
base case is the code that follows the loop.
-/

/-- Python truthiness of an optional api-key string: `None` and `""` are falsy
(the stages guard with `if not api_key:`). -/
def keyPresent : Option String → Bool
  | none => false
  | some s => !(s == "")

/-- The fallback-message catalog `FALLBACK_RESPONSES` of main.py
(the services modules carry per-stage subsets of the same dict),
embedded as a partial lookup. -/
def FALLBACK_RESPONSES (key : String) : Option String :=
  if key = "stt_error" then
    some "I\x27m having trouble hearing you right now. Could you please try again?"
  else if key = "llm_error" then
    some "I\x27m having trouble processing your request at the moment. Please try again in a few moments."
  else if key = "tts_error" then
    some "I understand your question but I\x27m having trouble speaking right now. Please check back soon."
  else if key = "general_error" then
    some "I\x27m experiencing some technical difficulties. Please try again later."
  else if key = "api_unavailable" then
    some "Some of my services are temporarily unavailable. I apologize for the inconvenience."
  else none

/-- The dict entry `FALLBACK_RESPONSES["stt_error"]` (always present). -/
def fb_stt_error : String :=
  "I\x27m having trouble hearing you right now. Could you please try again?"

/-- The dict entry `FALLBACK_RESPONSES["llm_error"]` (always present). -/
def fb_llm_error : String :=
  "I\x27m having trouble processing your request at the moment. Please try again in a few moments."

/-- The dict entry `FALLBACK_RESPONSES["tts_error"]` (always present). -/
def fb_tts_error : String :=
  "I understand your question but I\x27m having trouble speaking right now. Please check back soon."

/-- The dict entry `FALLBACK_RESPONSES["api_unavailable"]` (always present). -/
def fb_api_unavailable : String :=
  "Some of my services are temporarily unavailable. I apologize for the inconvenience."

/-- Python `str.strip()`: remove leading and trailing whitespace. -/
def pyStrip (s : String) : String :=
  ⟨((s.data.dropWhile Char.isWhitespace).reverse.dropWhile Char.isWhitespace).reverse⟩

/-- One observable behaviour of a speech-to-text provider attempt
(`transcriber.transcribe` inside the try block): the attempt raises,
reports `TranscriptStatus.error`, or completes with a transcript text. -/
inductive STTAttempt where
  | exn
  | errStatus
  | ok (text : String)
deriving DecidableEq

/-- One observable behaviour of a language-model provider attempt
(`client.models.generate_content` + `.text.strip()` inside the try block):
the attempt raises, or completes with a reply text. -/
inductive LLMAttempt where
  | exn
  | ok (text : String)
deriving DecidableEq

/-- One observable behaviour of a text-to-speech provider attempt
(`requests.post` inside the try block): a timeout, another exception, or an
HTTP response with a status code and an optional `audioFile` field. -/
inductive TTSAttempt where
  | exn
  | timeout
  | resp (status_code : Nat) (audioFile : Option String)
deriving DecidableEq

/-- The retry loop of `transcribe_audio_with_retry` (main.py) /
`transcribe_audio` (stt_service.py).  `fuel` is the number of loop
iterations remaining, `attempt` the current attempt index, `calls` the
number of provider attempts already made.  Returns the Python triple
`(success, value, code)` paired with the total provider-attempt count. -/
def transcribeLoop (provider : Nat → STTAttempt) :
    Nat → Nat → Nat → (Bool × String × String) × Nat
  | 0, _, calls => ((false, fb_stt_error, "stt_error"), calls)
  | fuel + 1, attempt, calls =>
    match provider attempt with
    | .exn =>
      if fuel > 0 then transcribeLoop provider fuel (attempt + 1) (calls + 1)
      else ((false, fb_stt_error, "stt_error"), calls + 1)
    | .errStatus =>
      if fuel > 0 then transcribeLoop provider fuel (attempt + 1) (calls + 1)
      else ((false, fb_stt_error, "stt_error"), calls + 1)
    | .ok t =>
      if (t == "") || (pyStrip t == "") then
        ((false, "No speech detected in the audio file", "empty_transcription"), calls + 1)
      else ((true, t, "success"), calls + 1)

/-- `transcribe_audio_with_retry(audio_file, max_retries)` of main.py,
equivalently `transcribe_audio(audio_file, api_key, max_retries)` of
stt_service.py (identical retry logic; main.py reads the key from the
module global).  The audio file itself only reaches the provider, so it
is absorbed into the provider oracle. -/
def transcribe_audio_with_retry (api_key : Option String)
    (provider : Nat → STTAttempt) (max_retries : Nat) :
    (Bool × String × String) × Nat :=
  if keyPresent api_key then transcribeLoop provider (max_retries + 1) 0 0
  else ((false, fb_api_unavailable, "api_unavailable"), 0)

/-- The retry loop of `generate_llm_response_with_retry` (main.py) /
`generate_llm_response` (llm_service.py).  An empty reply after
`.strip()` consumes a retry unit like an exception does. -/
def llmLoop (provider : Nat → LLMAttempt) :
    Nat → Nat → Nat → (Bool × String × String) × Nat
  | 0, _, calls => ((false, fb_llm_error, "llm_error"), calls)
  | fuel + 1, attempt, calls =>
    match provider attempt with
    | .exn =>
      if fuel > 0 then llmLoop provider fuel (attempt + 1) (calls + 1)
      else ((false, fb_llm_error, "llm_error"), calls + 1)
    | .ok t =>
      if pyStrip t == "" then
        if fuel > 0 then llmLoop provider fuel (attempt + 1) (calls + 1)
        else ((false, fb_llm_error, "llm_error"), calls + 1)
      else ((true, pyStrip t, "success"), calls + 1)

/-- `generate_llm_response_with_retry(prompt, max_retries)` of main.py,
equivalently the retry part of `generate_llm_response` of llm_service.py.
`client_ok` models whether `genai.Client()` succeeds (its failure is how a
missing language-model credential manifests); the prompt only reaches the
provider, so the provider oracle absorbs it and the argument is unused. -/
def generate_llm_response_with_retry (client_ok : Bool)
    (provider : Nat → LLMAttempt) (_prompt : String) (max_retries : Nat) :
    (Bool × String × String) × Nat :=
  if client_ok then llmLoop provider (max_retries + 1) 0 0
  else ((false, fb_api_unavailable, "api_unavailable"), 0)

/-- `generate_fallback_audio(text, error_type)` of fallback_service.py and
main.py: logs and returns `None` on every input. -/
def generate_fallback_audio (_text _error_type : String) : Option String :=
  none

/-- The retry loop of `generate_tts_with_retry` (main.py) / `generate_tts`
(tts_service.py).  A 200 response with a present `audioFile` succeeds;
every other behaviour (non-200, missing `audioFile`, timeout, exception)
moves on to the next iteration, and exhausting the loop falls through to
the code after it, which returns the fallback audio (main.py) / `None`
(tts_service.py) — the same value, since `generate_fallback_audio` always
returns `None`. -/
def ttsLoop (provider : Nat → TTSAttempt) (text : String) :
    Nat → Nat → Nat → (Bool × Option String × String) × Nat
  | 0, _, calls => ((false, generate_fallback_audio text "tts_error", "tts_error"), calls)
  | fuel + 1, attempt, calls =>
    match provider attempt with
    | .resp status_code audioFile =>
      if status_code = 200 then
        match audioFile with
        | some url => ((true, some url, "success"), calls + 1)
        | none => ttsLoop provider text fuel (attempt + 1) (calls + 1)
      else ttsLoop provider text fuel (attempt + 1) (calls + 1)
    | .timeout => ttsLoop provider text fuel (attempt + 1) (calls + 1)
    | .exn => ttsLoop provider text fuel (attempt + 1) (calls + 1)

/-- `generate_tts_with_retry(text, voice_id, max_retries)` of main.py,
equivalently `generate_tts(text, api_key, voice_id, max_retries)` of
tts_service.py.  The voice id only reaches the provider and is absorbed
into the oracle.  On a missing key main.py returns
`generate_fallback_audio(text, "api_unavailable")` (which is `None`,
the same value tts_service.py returns directly). -/
def generate_tts_with_retry (api_key : Option String)
    (provider : Nat → TTSAttempt) (text : String) (max_retries : Nat) :
    (Bool × Option String × String) × Nat :=
  if keyPresent api_key then ttsLoop provider text (max_retries + 1) 0 0
  else ((false, generate_fallback_audio text "api_unavailable", "api_unavailable"), 0)

/-- A history entry as the formatter sees it: a Python dict that may lack
the `role` or `content` key (accessing a missing key raises, which the
formatter catches).  Entries appended by the pipeline always carry both. -/
structure RawMessage where
  role : Option String
  content : Option String
deriving DecidableEq

/-- Python `xs[-n:]`: the last `n` elements (all of them when fewer). -/
def lastN (n : Nat) (l : List RawMessage) : List RawMessage :=
  l.drop (l.length - n)

/-- Rendering of one message inside the loop of
`format_chat_history_for_llm`; `none` models the KeyError raised when
`role` or `content` is absent. -/
def renderMessage (m : RawMessage) : Option String :=
  match m.role, m.content with
  | some r, some c =>
    if r = "user" then some ("User: " ++ c ++ "\n")
    else some ("Assistant: " ++ c ++ "\n")
  | _, _ => none

/-- Rendering of a message window in order; `none` as soon as any message
raises (the partially built string is discarded by the except branch). -/
def renderHistory : List RawMessage → Option String
  | [] => some ""
  | m :: rest =>
    match renderMessage m with
    | none => none
    | some s => (renderHistory rest).map (fun r => s ++ r)

/-- `format_chat_history_for_llm(chat_history, new_message)` of main.py and
llm_service.py (identical bodies).  The `try` body builds the full prompt
over the last-6-message window; if any access raises, the `except` branch
returns the minimal prompt. -/
def format_chat_history_for_llm (chat_history : List RawMessage)
    (new_message : String) : String :=
  let base := "You are a helpful AI assistant. Please provide clear, concise, and friendly responses. Keep your responses conversational and not too lengthy since they will be converted to speech.\n\n"
  let body : Option String :=
    if chat_history.isEmpty then some ""
    else (renderHistory (lastN 6 chat_history)).map
      (fun s => "Previous conversation:\n" ++ s ++ "\n")
  match body with
  | some b => base ++ b ++ "User: " ++ new_message ++ "\n\nAssistant:"
  | none => "User: " ++ new_message ++ "\n\nAssistant:"

/-- The in-memory `chat_histories` dict, as an association list keyed by
session id (insertion-ordered, keys unique by construction of the
operations below). -/
abbrev Store : Type := List (String × List RawMessage)

/-- Dict lookup `chat_histories.get(sid)`. -/
def storeFind : Store → String → Option (List RawMessage)
  | [], _ => none
  | (k, v) :: rest, sid => if k = sid then some v else storeFind rest sid

/-- Dict membership `sid in chat_histories`. -/
def storeContains : Store → String → Bool
  | [], _ => false
  | (k, _) :: rest, sid => if k = sid then true else storeContains rest sid

/-- Replace the value at an existing key. -/
def storeReplace : Store → String → List RawMessage → Store
  | [], _, _ => []
  | (k, v) :: rest, sid, h =>
    if k = sid then (k, h) :: storeReplace rest sid h
    else (k, v) :: storeReplace rest sid h

/-- Dict assignment `chat_histories[sid] = h`. -/
def storeSet (s : Store) (sid : String) (h : List RawMessage) : Store :=
  if storeContains s sid then storeReplace s sid h else s ++ [(sid, h)]

/-- Dict deletion `del chat_histories[sid]` (the caller guards membership). -/
def storeErase (s : Store) (sid : String) : Store :=
  s.filter (fun p => p.1 ≠ sid)

/-- `get_or_create_session(session_id)` of main.py: ensure the key exists
(bound to `[]` when new) and return its history. -/
def get_or_create_session (store : Store) (session_id : String) :
    List RawMessage × Store :=
  match storeFind store session_id with
  | some h => (h, store)
  | none => ([], storeSet store session_id [])

/-- `add_message_to_history(session_id, role, content)` of main.py: ensure
the key exists, then append `{"role": role, "content": content}`. -/
def add_message_to_history (store : Store) (session_id role content : String) :
    Store :=
  storeSet store session_id
    (((storeFind store session_id).getD []) ++ [⟨some role, some content⟩])

/-- Response body of `GET /agent/history/{session_id}`. -/
structure HistoryResponse where
  session_id : String
  messages : List RawMessage
  message_count : Nat
  status : String
deriving DecidableEq

/-- `get_chat_history(session_id)` of main.py: a pure read of the store. -/
def get_chat_history (store : Store) (session_id : String) : HistoryResponse :=
  match storeFind store session_id with
  | none => ⟨session_id, [], 0, "new_session"⟩
  | some h => ⟨session_id, h, h.length, "success"⟩

/-- `clear_chat_history(session_id)` of main.py: delete the key when
present, and answer `{"session_id": ..., "status": "cleared"}` either way. -/
def clear_chat_history (store : Store) (session_id : String) :
    (String × String) × Store :=
  if storeContains store session_id then
    ((session_id, "cleared"), storeErase store session_id)
  else ((session_id, "cleared"), store)

/-- The provider environment of one `/agent/chat/{session_id}` request:
the two credentials, whether `genai.Client()` succeeds, and the three
provider oracles. -/
structure Providers where
  sttKey : Option String
  stt : Nat → STTAttempt
  llmClientOk : Bool
  llm : Nat → LLMAttempt
  ttsKey : Option String
  tts : Nat → TTSAttempt

/-- The JSON body and HTTP status a `/agent/chat/{session_id}` request
answers with; fields absent from a given branch of the Python handler are
`none` / `false` here. -/
structure ChatResponse where
  status_code : Nat
  status : String
  error : Option String
  error_type : Option String
  fallback_message : Option String
  user_message : Option String
  ai_response : Option String
  session_id : Option String
  message_count : Option Nat
  tts_error : Bool
  tts_error_message : Option String
  audio_url : Option String
deriving DecidableEq

/-- `chat_with_history(session_id, audio_file)` of main.py: the pipeline
orchestrator.  Threads the `chat_histories` store explicitly; the
`except` branch of the handler (general_error, 500) is unreachable in
this model because no embedded operation raises. -/
def chat_with_history (env : Providers) (store : Store) (session_id : String) :
    ChatResponse × Store :=
  let sttR := (transcribe_audio_with_retry env.sttKey env.stt 2).1
  if sttR.1 = false then
    let ttsR := (generate_tts_with_retry env.ttsKey env.tts sttR.2.1 2).1
    ({ status_code := 503, status := "error",
       error := some "Speech transcription failed",
       error_type := some sttR.2.2,
       fallback_message := some sttR.2.1,
       user_message := none, ai_response := none, session_id := none,
       message_count := none, tts_error := false, tts_error_message := none,
       audio_url := if ttsR.1 then ttsR.2.1 else none }, store)
  else
    let user_message := sttR.2.1
    let hs := get_or_create_session store session_id
    let conversation_prompt := format_chat_history_for_llm hs.1 user_message
    let llmR := (generate_llm_response_with_retry env.llmClientOk env.llm
      conversation_prompt 2).1
    if llmR.1 = false then
      let store2 := add_message_to_history hs.2 session_id "user" user_message
      let ttsR := (generate_tts_with_retry env.ttsKey env.tts llmR.2.1 2).1
      ({ status_code := 503, status := "error",
         error := some "AI response generation failed",
         error_type := some llmR.2.2,
         fallback_message := some llmR.2.1,
         user_message := none, ai_response := none, session_id := none,
         message_count := none, tts_error := false, tts_error_message := none,
         audio_url := if ttsR.1 then ttsR.2.1 else none }, store2)
    else
      let ai_response := llmR.2.1
      let store2 := add_message_to_history hs.2 session_id "user" user_message
      let store3 := add_message_to_history store2 session_id "assistant" ai_response
      let ttsR := (generate_tts_with_retry env.ttsKey env.tts ai_response 2).1
      if ttsR.1 = false then
        ({ status_code := 206, status := "partial_success",
           error := none, error_type := none, fallback_message := none,
           user_message := some user_message,
           ai_response := some ai_response,
           session_id := some session_id,
           message_count := some ((storeFind store3 session_id).getD []).length,
           tts_error := true,
           tts_error_message := some fb_tts_error,
           audio_url := ttsR.2.1 }, store3)
      else
        ({ status_code := 200, status := "success",
           error := none, error_type := none, fallback_message := none,
           user_message := some user_message,
           ai_response := some ai_response,
           session_id := some session_id,
           message_count := some ((storeFind store3 session_id).getD []).length,
           tts_error := false, tts_error_message := none,
           audio_url := ttsR.2.1 }, store3)

/-! ### Helper lemmas -/

lemma storeContains_eq_false_iff (s : Store) (sid : String) :
    storeContains s sid = false ↔ storeFind s sid = none := by
  induction s with
  | nil => simp [storeContains, storeFind]
  | cons p rest ih =>
    obtain ⟨k, v⟩ := p
    by_cases hk : k = sid <;> simp [storeContains, storeFind, hk, ih]

lemma storeFind_storeReplace (s : Store) (sid : String) (hst : List RawMessage)
    (hc : storeContains s sid = true) :
    storeFind (storeReplace s sid hst) sid = some hst := by
  induction s with
  | nil => simp [storeContains] at hc
  | cons p rest ih =>
    obtain ⟨k, v⟩ := p
    by_cases hk : k = sid
    · simp [storeReplace, storeFind, hk]
    · simp only [storeContains, if_neg hk] at hc
      simp [storeReplace, storeFind, hk, ih hc]

lemma storeFind_append_of_none (s t : Store) (sid : String)
    (h : storeFind s sid = none) :
    storeFind (s ++ t) sid = storeFind t sid := by
  induction s with
  | nil => rfl
  | cons p rest ih =>
    obtain ⟨k, v⟩ := p
    by_cases hk : k = sid
    · simp [storeFind, hk] at h
    · simp only [storeFind, if_neg hk] at h
      simpa [storeFind, hk] using ih h

lemma storeFind_storeSet (s : Store) (sid : String) (hst : List RawMessage) :
    storeFind (storeSet s sid hst) sid = some hst := by
  unfold storeSet
  by_cases hc : storeContains s sid = true
  · simp [hc, storeFind_storeReplace s sid hst hc]
  · have hn : storeFind s sid = none :=
      (storeContains_eq_false_iff s sid).mp (by simpa using hc)
    simp only [hc, if_false, Bool.false_eq_true, if_neg]
    rw [storeFind_append_of_none s _ sid hn]
    simp [storeFind]

lemma transcribeLoop_shape (p : Nat → STTAttempt) (fuel : Nat) :
    ∀ attempt calls,
      (transcribeLoop p fuel attempt calls).1 = (false, fb_stt_error, "stt_error")
      ∨ (transcribeLoop p fuel attempt calls).1
          = (false, "No speech detected in the audio file", "empty_transcription")
      ∨ ∃ t, (transcribeLoop p fuel attempt calls).1 = (true, t, "success") := by
  induction fuel with
  | zero => intro attempt calls; left; rfl
  | succ n ih =>
    intro attempt calls
    cases hp : p attempt with
    | exn =>
      by_cases hn : n > 0
      · simpa [transcribeLoop, hp, hn] using ih (attempt + 1) (calls + 1)
      · simp [transcribeLoop, hp, hn]
    | errStatus =>
      by_cases hn : n > 0
      · simpa [transcribeLoop, hp, hn] using ih (attempt + 1) (calls + 1)
      · simp [transcribeLoop, hp, hn]
    | ok t =>
      by_cases ht : ((t == "") || (pyStrip t == "")) = true
      · simp [transcribeLoop, hp, ht]
      · simp only [transcribeLoop, hp, ht]
        right; right; exact ⟨t, by simp [ht]⟩

lemma llmLoop_shape (p : Nat → LLMAttempt) (fuel : Nat) :
    ∀ attempt calls,
      (llmLoop p fuel attempt calls).1 = (false, fb_llm_error, "llm_error")
      ∨ ∃ t, (llmLoop p fuel attempt calls).1 = (true, t, "success") := by
  induction fuel with
  | zero => intro attempt calls; left; rfl
  | succ n ih =>
    intro attempt calls
    cases hp : p attempt with
    | exn =>
      by_cases hn : n > 0
      · simpa [llmLoop, hp, hn] using ih (attempt + 1) (calls + 1)
      · simp [llmLoop, hp, hn]
    | ok t =>
      by_cases ht : (pyStrip t == "") = true
      · by_cases hn : n > 0
        · simpa [llmLoop, hp, ht, hn] using ih (attempt + 1) (calls + 1)
        · simp [llmLoop, hp, ht, hn]
      · simp only [llmLoop, hp, ht]
        right; exact ⟨pyStrip t, by simp [ht]⟩

lemma ttsLoop_shape (p : Nat → TTSAttempt) (text : String) (fuel : Nat) :
    ∀ attempt calls,
      (ttsLoop p text fuel attempt calls).1 = (false, none, "tts_error")
      ∨ ∃ u, (ttsLoop p text fuel attempt calls).1 = (true, some u, "success") := by
  induction fuel with
  | zero => intro attempt calls; left; rfl
  | succ n ih =>
    intro attempt calls
    cases hp : p attempt with
    | exn => simpa [ttsLoop, hp] using ih (attempt + 1) (calls + 1)
    | timeout => simpa [ttsLoop, hp] using ih (attempt + 1) (calls + 1)
    | resp sc af =>
      by_cases hsc : sc = 200
      · cases af with
        | some url => simp [ttsLoop, hp, hsc]
        | none => simpa [ttsLoop, hp, hsc] using ih (attempt + 1) (calls + 1)
      · simpa [ttsLoop, hp, hsc] using ih (attempt + 1) (calls + 1)

lemma tts_fail_shape (key : Option String) (p : Nat → TTSAttempt)
    (text : String) (mr : Nat)
    (h : (generate_tts_with_retry key p text mr).1.1 = false) :
    (generate_tts_with_retry key p text mr).1.2.1 = none
    ∧ ((generate_tts_with_retry key p text mr).1.2.2 = "api_unavailable"
        ∨ (generate_tts_with_retry key p text mr).1.2.2 = "tts_error") := by
  unfold generate_tts_with_retry at *
  by_cases hk : keyPresent key = true
  · simp only [hk, if_true] at *
    rcases ttsLoop_shape p text (mr + 1) 0 0 with hs | ⟨u, hs⟩
    · simp [hs]
    · simp [hs] at h
  · simp only [hk] at *
    simp [generate_fallback_audio]

lemma ttsLoop_step_fail (p : Nat → TTSAttempt) (text : String)
    (fuel attempt calls : Nat)
    (h : p attempt = .exn ∨ p attempt = .timeout
        ∨ ∃ sc af, p attempt = .resp sc af ∧ (sc ≠ 200 ∨ af = none)) :
    ttsLoop p text (fuel + 1) attempt calls
      = ttsLoop p text fuel (attempt + 1) (calls + 1) := by
  rcases h with h | h | ⟨sc, af, h, hbad⟩
  · simp [ttsLoop, h]
  · simp [ttsLoop, h]
  · rcases hbad with hsc | haf
    · simp [ttsLoop, h, hsc]
    · subst haf
      by_cases hsc : sc = 200 <;> simp [ttsLoop, h, hsc]

lemma renderHistory_eq_none (l : List RawMessage) (x : RawMessage)
    (hx : x ∈ l) (hr : renderMessage x = none) : renderHistory l = none := by
  induction l with
  | nil => cases hx
  | cons a rest ih =>
    cases hx with
    | head => simp [renderHistory, hr]
    | tail _ hmem =>
      cases ha : renderMessage a with
      | none => simp [renderHistory, ha]
      | some s => simp [renderHistory, ha, ih hmem]

lemma lastN_eq_nil_iff (l : List RawMessage) : lastN 6 l = [] ↔ l = [] := by
  unfold lastN
  constructor
  · intro h
    have hl := congrArg List.length h
    simp only [List.length_drop, List.length_nil] at hl
    have : l.length = 0 := by omega
    exact List.eq_nil_of_length_eq_zero this
  · intro h; simp [h]

lemma llm_prompt_irrel (client_ok : Bool) (p : Nat → LLMAttempt)
    (a b : String) (mr : Nat) :
    generate_llm_response_with_retry client_ok p a mr
      = generate_llm_response_with_retry client_ok p b mr := rfl

/-! ### Claim theorems -/

/-- C1 (amended): with `max_retries = 2` the retry ceiling is inclusive of
the final allowed attempt.  For the reply and synthesis stages, a failure
is an exception, a provider-reported failure (non-200 response), or an
empty payload (blank reply text / missing audioFile): two failures
followed by a success yield `Success` with the provider value, and three
failures yield exactly 3 provider attempts and `Fatal` with the stage
reason code (`llm_error` / `tts_error`).  For the transcription stage the
same holds with failure meaning an exception or a provider-reported error
status — an empty transcript is not retried (see C5) — and with the
third-attempt success carrying non-blank text. -/
theorem C1_retry_ceiling_amended :
    (∀ (key : String) (p : Nat → STTAttempt) (t : String),
        key ≠ "" →
        (p 0 = .exn ∨ p 0 = .errStatus) →
        (p 1 = .exn ∨ p 1 = .errStatus) →
        p 2 = .ok t → ((t == "") || (pyStrip t == "")) = false →
        transcribe_audio_with_retry (some key) p 2 = ((true, t, "success"), 3))
    ∧ (∀ (key : String) (p : Nat → STTAttempt),
        key ≠ "" →
        (∀ i, i ≤ 2 → p i = .exn ∨ p i = .errStatus) →
        transcribe_audio_with_retry (some key) p 2
          = ((false, fb_stt_error, "stt_error"), 3))
    ∧ (∀ (p : Nat → LLMAttempt) (prompt t : String),
        (p 0 = .exn ∨ ∃ s, p 0 = .ok s ∧ (pyStrip s == "") = true) →
        (p 1 = .exn ∨ ∃ s, p 1 = .ok s ∧ (pyStrip s == "") = true) →
        p 2 = .ok t → (pyStrip t == "") = false →
        generate_llm_response_with_retry true p prompt 2
          = ((true, pyStrip t, "success"), 3))
    ∧ (∀ (p : Nat → LLMAttempt) (prompt : String),
        (∀ i, i ≤ 2 → p i = .exn ∨ ∃ s, p i = .ok s ∧ (pyStrip s == "") = true) →
        generate_llm_response_with_retry true p prompt 2
          = ((false, fb_llm_error, "llm_error"), 3))
    ∧ (∀ (key : String) (p : Nat → TTSAttempt) (text url : String),
        key ≠ "" →
        (p 0 = .exn ∨ p 0 = .timeout
          ∨ ∃ sc af, p 0 = .resp sc af ∧ (sc ≠ 200 ∨ af = none)) →
        (p 1 = .exn ∨ p 1 = .timeout
          ∨ ∃ sc af, p 1 = .resp sc af ∧ (sc ≠ 200 ∨ af = none)) →
        p 2 = .resp 200 (some url) →
        generate_tts_with_retry (some key) p text 2
          = ((true, some url, "success"), 3))
    ∧ (∀ (key : String) (p : Nat → TTSAttempt) (text : String),
        key ≠ "" →
        (∀ i, i ≤ 2 → p i = .exn ∨ p i = .timeout
          ∨ ∃ sc af, p i = .resp sc af ∧ (sc ≠ 200 ∨ af = none)) →
        generate_tts_with_retry (some key) p text 2
          = ((false, none, "tts_error"), 3)) := by
  refine ⟨?_, ?_, ?_, ?_, ?_, ?_⟩
  · intro key p t hk h0 h1 h2 ht
    have hkp : keyPresent (some key) = true := by simp [keyPresent, hk]
    unfold transcribe_audio_with_retry
    rcases h0 with h0 | h0 <;> rcases h1 with h1 | h1 <;>
      simp [hkp, transcribeLoop, h0, h1, h2, ht]
  · intro key p hk hall
    have hkp : keyPresent (some key) = true := by simp [keyPresent, hk]
    unfold transcribe_audio_with_retry
    rcases hall 0 (by omega) with h0 | h0 <;>
      rcases hall 1 (by omega) with h1 | h1 <;>
      rcases hall 2 (by omega) with h2 | h2 <;>
      simp [hkp, transcribeLoop, h0, h1, h2]
  · intro p prompt t h0 h1 h2 ht
    unfold generate_llm_response_with_retry
    rcases h0 with h0 | ⟨s0, h0, hs0⟩ <;> rcases h1 with h1 | ⟨s1, h1, hs1⟩ <;>
      simp_all [llmLoop]
  · intro p prompt hall
    unfold generate_llm_response_with_retry
    have h0 := hall 0 (by omega)
    have h1 := hall 1 (by omega)
    have h2 := hall 2 (by omega)
    clear hall
    rcases h0 with h0 | ⟨s0, h0, hs0⟩ <;>
      rcases h1 with h1 | ⟨s1, h1, hs1⟩ <;>
      rcases h2 with h2 | ⟨s2, h2, hs2⟩ <;>
      simp_all [llmLoop]
  · intro key p text url hk h0 h1 h2
    have hkp : keyPresent (some key) = true := by simp [keyPresent, hk]
    unfold generate_tts_with_retry
    rw [if_pos hkp]
    rw [ttsLoop_step_fail p text 2 0 0 h0, ttsLoop_step_fail p text 1 1 1 h1]
    simp [ttsLoop, h2]
  · intro key p text hk hall
    have hkp : keyPresent (some key) = true := by simp [keyPresent, hk]
    unfold generate_tts_with_retry
    rw [if_pos hkp]
    rw [ttsLoop_step_fail p text 2 0 0 (hall 0 (by omega)),
        ttsLoop_step_fail p text 1 1 1 (hall 1 (by omega)),
        ttsLoop_step_fail p text 0 2 2 (hall 2 (by omega))]
    rfl

/-- C1 counterexample: for the transcription stage, an empty payload on the
first two attempts with a success on the third does NOT yield `Success`
after 3 attempts — the first empty transcript already terminates the stage
with `Fatal(empty_transcription)` after a single provider attempt. -/
theorem C1_counterexample :
    transcribe_audio_with_retry (some "k")
      (fun n => if n < 2 then STTAttempt.ok "" else STTAttempt.ok "hello") 2
    = ((false, "No speech detected in the audio file", "empty_transcription"), 1) := by
  decide

/-- C1 witness: concrete runs of the six amended statements. -/
theorem C1_witness :
    transcribe_audio_with_retry (some "k")
      (fun n => if n < 2 then STTAttempt.exn else STTAttempt.ok "hello") 2
      = ((true, "hello", "success"), 3)
    ∧ transcribe_audio_with_retry (some "k") (fun _ => STTAttempt.errStatus) 2
      = ((false, fb_stt_error, "stt_error"), 3)
    ∧ generate_llm_response_with_retry true
      (fun n => if n < 2 then LLMAttempt.ok "  " else LLMAttempt.ok " hi ") "p" 2
      = ((true, "hi", "success"), 3)
    ∧ generate_llm_response_with_retry true (fun _ => LLMAttempt.exn) "p" 2
      = ((false, fb_llm_error, "llm_error"), 3)
    ∧ generate_tts_with_retry (some "k")
      (fun n => if n < 2 then TTSAttempt.resp 200 none
        else TTSAttempt.resp 200 (some "http://a/x.mp3")) "t" 2
      = ((true, some "http://a/x.mp3", "success"), 3)
    ∧ generate_tts_with_retry (some "k") (fun _ => TTSAttempt.resp 500 none) "t" 2
      = ((false, none, "tts_error"), 3) := by
  refine ⟨?_, ?_, ?_, ?_, ?_, ?_⟩
  · exact C1_retry_ceiling_amended.1 "k" _ "hello" (by decide)
      (by left; rfl) (by left; rfl) (by rfl) (by decide)
  · exact C1_retry_ceiling_amended.2.1 "k" _ (by decide)
      (fun i _ => by right; rfl)
  · exact C1_retry_ceiling_amended.2.2.1 _ "p" " hi "
      (by right; exact ⟨"  ", rfl, by decide⟩)
      (by right; exact ⟨"  ", rfl, by decide⟩) (by rfl) (by decide)
  · exact C1_retry_ceiling_amended.2.2.2.1 _ "p" (fun i _ => by left; rfl)
  · refine C1_retry_ceiling_amended.2.2.2.2.1 "k" _ "t" "http://a/x.mp3"
      (by decide) ?_ ?_ (by rfl)
    · right; right; exact ⟨200, none, rfl, by right; rfl⟩
    · right; right; exact ⟨200, none, rfl, by right; rfl⟩
  · exact C1_retry_ceiling_amended.2.2.2.2.2 "k" _ "t" (by decide)
      (fun i _ => by right; right; exact ⟨500, none, rfl, by left; decide⟩)

/-- C2: in a chat run whose transcription succeeds, when the Reply Stage
returns `Fatal` the response is status `error` with code 503 and the
session history is exactly the prior history plus the user message (the
user turn recorded before the reply call, no assistant message). -/
theorem C2_reply_fatal_records_user (env : Providers) (store : Store)
    (sid : String)
    (hstt : (transcribe_audio_with_retry env.sttKey env.stt 2).1.1 = true)
    (hllm : ∀ prompt,
      (generate_llm_response_with_retry env.llmClientOk env.llm prompt 2).1.1
        = false) :
    (chat_with_history env store sid).1.status_code = 503
    ∧ (chat_with_history env store sid).1.status = "error"
    ∧ storeFind (chat_with_history env store sid).2 sid
        = some (((storeFind store sid).getD [])
            ++ [⟨some "user",
                  some (transcribe_audio_with_retry env.sttKey env.stt 2).1.2.1⟩]) := by
  unfold chat_with_history get_or_create_session add_message_to_history
  cases hfind : storeFind store sid with
  | none =>
    simp [hstt, hllm, hfind, storeFind_storeSet]
  | some h =>
    simp [hstt, hllm, hfind, storeFind_storeSet]

/-- C3: when the transcription stage returns `Fatal` during a chat run,
the session store is unchanged by the request and the response carries
code 503 with `error_type` equal to the transcription reason code. -/
theorem C3_stt_fatal_frame (env : Providers) (store : Store) (sid : String)
    (hstt : (transcribe_audio_with_retry env.sttKey env.stt 2).1.1 = false) :
    (chat_with_history env store sid).2 = store
    ∧ (chat_with_history env store sid).1.status_code = 503
    ∧ (chat_with_history env store sid).1.error_type
        = some (transcribe_audio_with_retry env.sttKey env.stt 2).1.2.2 := by
  unfold chat_with_history
  simp [hstt]

/-- C3 witness: a provider that raises on every attempt, against a present
credential, leaves the store untouched and reports `stt_error`. -/
theorem C3_witness :
    (chat_with_history
        ⟨some "k", fun _ => STTAttempt.exn, true, fun _ => LLMAttempt.ok "x",
         some "m", fun _ => TTSAttempt.exn⟩
        [("other", [])] "s1").2 = [("other", [])]
    ∧ (chat_with_history
        ⟨some "k", fun _ => STTAttempt.exn, true, fun _ => LLMAttempt.ok "x",
         some "m", fun _ => TTSAttempt.exn⟩
        [("other", [])] "s1").1.status_code = 503
    ∧ (chat_with_history
        ⟨some "k", fun _ => STTAttempt.exn, true, fun _ => LLMAttempt.ok "x",
         some "m", fun _ => TTSAttempt.exn⟩
        [("other", [])] "s1").1.error_type = some "stt_error" := by
  have h := C3_stt_fatal_frame
    ⟨some "k", fun _ => STTAttempt.exn, true, fun _ => LLMAttempt.ok "x",
     some "m", fun _ => TTSAttempt.exn⟩
    [("other", [])] "s1" (by decide)
  exact ⟨h.1, h.2.1, h.2.2⟩

/-- C2 witness: transcription succeeds with "hello there" but the language
model client is unavailable; the run answers 503/error and the fresh
session history is exactly the single user message. -/
theorem C2_witness :
    (chat_with_history
        ⟨some "k", fun _ => STTAttempt.ok "hello there", false,
         fun _ => LLMAttempt.exn, none, fun _ => TTSAttempt.exn⟩
        [] "s1").1.status_code = 503
    ∧ (chat_with_history
        ⟨some "k", fun _ => STTAttempt.ok "hello there", false,
         fun _ => LLMAttempt.exn, none, fun _ => TTSAttempt.exn⟩
        [] "s1").1.status = "error"
    ∧ storeFind (chat_with_history
        ⟨some "k", fun _ => STTAttempt.ok "hello there", false,
         fun _ => LLMAttempt.exn, none, fun _ => TTSAttempt.exn⟩
        [] "s1").2 "s1"
      = some [⟨some "user", some "hello there"⟩] := by
  have h := C2_reply_fatal_records_user
    ⟨some "k", fun _ => STTAttempt.ok "hello there", false,
     fun _ => LLMAttempt.exn, none, fun _ => TTSAttempt.exn⟩
    [] "s1" (by decide) (fun prompt => by rfl)
  exact ⟨h.1, h.2.1, h.2.2⟩

/-- C6: when transcription and reply succeed but synthesis returns `Fatal`,
the chat response is code 206 / `partial_success` with the transcript and
reply text populated, the speech-synthesis-failed flag set, a `none` audio
reference, and the session history extended by exactly the user message
then the assistant message (message count = previous length + 2). -/
theorem C6_synthesis_fatal_degraded (env : Providers) (store : Store) (sid : String)
    (hstt : (transcribe_audio_with_retry env.sttKey env.stt 2).1.1 = true)
    (hllm : ∀ prompt,
      (generate_llm_response_with_retry env.llmClientOk env.llm prompt 2).1.1
        = true)
    (htts : ∀ text,
      (generate_tts_with_retry env.ttsKey env.tts text 2).1.1 = false) :
    (chat_with_history env store sid).1.status_code = 206
    ∧ (chat_with_history env store sid).1.status = "partial_success"
    ∧ (chat_with_history env store sid).1.user_message
        = some (transcribe_audio_with_retry env.sttKey env.stt 2).1.2.1
    ∧ (chat_with_history env store sid).1.ai_response
        = some (generate_llm_response_with_retry env.llmClientOk env.llm "" 2).1.2.1
    ∧ (chat_with_history env store sid).1.tts_error = true
    ∧ (chat_with_history env store sid).1.audio_url = none
    ∧ storeFind (chat_with_history env store sid).2 sid
        = some (((storeFind store sid).getD [])
            ++ [⟨some "user",
                  some (transcribe_audio_with_retry env.sttKey env.stt 2).1.2.1⟩,
                ⟨some "assistant",
                  some (generate_llm_response_with_retry env.llmClientOk
                    env.llm "" 2).1.2.1⟩])
    ∧ (chat_with_history env store sid).1.message_count
        = some (((storeFind store sid).getD []).length + 2) := by
  have hval : ∀ text,
      (generate_tts_with_retry env.ttsKey env.tts text 2).1.2.1 = none :=
    fun text => (tts_fail_shape env.ttsKey env.tts text 2 (htts text)).1
  unfold chat_with_history get_or_create_session add_message_to_history
  cases hfind : storeFind store sid with
  | none =>
    simp [hstt, hllm, htts, hval, hfind, storeFind_storeSet]
    all_goals rfl
  | some h =>
    simp [hstt, hllm, htts, hval, hfind, storeFind_storeSet]
    all_goals rfl

/-- C6 witness: the end-to-end scenario of the spec — transcription "turn
on the lights", reply "Sure, turning them on.", synthesis credential
absent — answers 206 / partial_success with `audio_url = none` and leaves
exactly the two messages in a fresh session. -/
theorem C6_witness :
    (chat_with_history
        ⟨some "k", fun _ => STTAttempt.ok "turn on the lights", true,
         fun _ => LLMAttempt.ok "Sure, turning them on.", none,
         fun _ => TTSAttempt.exn⟩ [] "s1").1.status_code = 206
    ∧ (chat_with_history
        ⟨some "k", fun _ => STTAttempt.ok "turn on the lights", true,
         fun _ => LLMAttempt.ok "Sure, turning them on.", none,
         fun _ => TTSAttempt.exn⟩ [] "s1").1.status = "partial_success"
    ∧ (chat_with_history
        ⟨some "k", fun _ => STTAttempt.ok "turn on the lights", true,
         fun _ => LLMAttempt.ok "Sure, turning them on.", none,
         fun _ => TTSAttempt.exn⟩ [] "s1").1.user_message
        = some "turn on the lights"
    ∧ (chat_with_history
        ⟨some "k", fun _ => STTAttempt.ok "turn on the lights", true,
         fun _ => LLMAttempt.ok "Sure, turning them on.", none,
         fun _ => TTSAttempt.exn⟩ [] "s1").1.ai_response
        = some "Sure, turning them on."
    ∧ (chat_with_history
        ⟨some "k", fun _ => STTAttempt.ok "turn on the lights", true,
         fun _ => LLMAttempt.ok "Sure, turning them on.", none,
         fun _ => TTSAttempt.exn⟩ [] "s1").1.tts_error = true
    ∧ (chat_with_history
        ⟨some "k", fun _ => STTAttempt.ok "turn on the lights", true,
         fun _ => LLMAttempt.ok "Sure, turning them on.", none,
         fun _ => TTSAttempt.exn⟩ [] "s1").1.audio_url = none
    ∧ storeFind (chat_with_history
        ⟨some "k", fun _ => STTAttempt.ok "turn on the lights", true,
         fun _ => LLMAttempt.ok "Sure, turning them on.", none,
         fun _ => TTSAttempt.exn⟩ [] "s1").2 "s1"
        = some [⟨some "user", some "turn on the lights"⟩,
                ⟨some "assistant", some "Sure, turning them on."⟩]
    ∧ (chat_with_history
        ⟨some "k", fun _ => STTAttempt.ok "turn on the lights", true,
         fun _ => LLMAttempt.ok "Sure, turning them on.", none,
         fun _ => TTSAttempt.exn⟩ [] "s1").1.message_count = some 2 := by
  have h := C6_synthesis_fatal_degraded
    ⟨some "k", fun _ => STTAttempt.ok "turn on the lights", true,
     fun _ => LLMAttempt.ok "Sure, turning them on.", none,
     fun _ => TTSAttempt.exn⟩ [] "s1"
    (by decide) (fun prompt => by rfl) (fun text => by rfl)
  refine ⟨h.1, h.2.1, h.2.2.1, ?_, h.2.2.2.2.1, h.2.2.2.2.2.1, ?_, ?_⟩
  · have := h.2.2.2.1
    simpa using this
  · have := h.2.2.2.2.2.2.1
    simpa using this
  · have := h.2.2.2.2.2.2.2
    simpa using this

/-- C4: with the stage credential/configuration absent (a missing or empty
key string; for the reply stage, a failing client construction), every
stage returns `Fatal(api_unavailable)` with zero provider attempts, and
the api_unavailable catalog message accompanies it (directly as the
returned value for transcription and reply; via the catalog for
synthesis, whose returned audio value is `none`). -/
theorem C4_missing_credential_short_circuit :
    (∀ (p : Nat → STTAttempt) (mr : Nat),
        transcribe_audio_with_retry none p mr
          = ((false, fb_api_unavailable, "api_unavailable"), 0)
        ∧ transcribe_audio_with_retry (some "") p mr
          = ((false, fb_api_unavailable, "api_unavailable"), 0))
    ∧ (∀ (p : Nat → LLMAttempt) (prompt : String) (mr : Nat),
        generate_llm_response_with_retry false p prompt mr
          = ((false, fb_api_unavailable, "api_unavailable"), 0))
    ∧ (∀ (p : Nat → TTSAttempt) (text : String) (mr : Nat),
        generate_tts_with_retry none p text mr
          = ((false, none, "api_unavailable"), 0)
        ∧ generate_tts_with_retry (some "") p text mr
          = ((false, none, "api_unavailable"), 0))
    ∧ FALLBACK_RESPONSES "api_unavailable" = some fb_api_unavailable := by
  refine ⟨fun p mr => ⟨rfl, rfl⟩, fun p prompt mr => rfl,
    fun p text mr => ⟨rfl, rfl⟩, by decide⟩

/-- C5: a transcription provider call that completes with empty or
whitespace-only text makes the stage return
`Fatal(empty_transcription)` with the message "No speech detected in the
audio file" after that single provider attempt, for every remaining retry
budget. -/
theorem C5_empty_transcription_no_retry (key : String)
    (p : Nat → STTAttempt) (t : String) (mr : Nat)
    (hk : key ≠ "") (h0 : p 0 = .ok t)
    (ht : ((t == "") || (pyStrip t == "")) = true) :
    transcribe_audio_with_retry (some key) p mr
      = ((false, "No speech detected in the audio file", "empty_transcription"), 1) := by
  have hkp : keyPresent (some key) = true := by simp [keyPresent, hk]
  unfold transcribe_audio_with_retry
  simp [hkp, transcribeLoop, h0, ht]

/-- C5 witness: a whitespace-only transcript on the first attempt, with a
full retry budget of 5, terminates at once as `empty_transcription`. -/
theorem C5_witness :
    transcribe_audio_with_retry (some "k") (fun _ => STTAttempt.ok "   ") 5
      = ((false, "No speech detected in the audio file", "empty_transcription"), 1) :=
  C5_empty_transcription_no_retry "k" _ "   " 5 (by decide) rfl (by decide)

/-- C7: the conversation formatter is total and windowed — its output
depends only on the last 6 history messages and the new message (two
histories agreeing on their last 6 messages produce identical prompts),
and if rendering any message in the window raises (missing role/content
key), it degrades to the minimal prompt containing only the new
message. -/
theorem C7_formatter_window_and_degrade :
    (∀ (h1 h2 : List RawMessage) (m : String),
        lastN 6 h1 = lastN 6 h2 →
        format_chat_history_for_llm h1 m = format_chat_history_for_llm h2 m)
    ∧ (∀ (h : List RawMessage) (m : String),
        (∃ x ∈ lastN 6 h, renderMessage x = none) →
        format_chat_history_for_llm h m = "User: " ++ m ++ "\n\nAssistant:") := by
  constructor
  · intro h1 h2 m hwin
    by_cases he : h1 = []
    · have he2 : h2 = [] := by
        rw [← lastN_eq_nil_iff, ← hwin, lastN_eq_nil_iff]
        exact he
      rw [he, he2]
    · have he2 : h2 ≠ [] := by
        intro hh
        exact he (by rw [← lastN_eq_nil_iff, hwin, lastN_eq_nil_iff]; exact hh)
      unfold format_chat_history_for_llm
      simp [List.isEmpty_iff, he, he2, hwin]
  · intro h m ⟨x, hx, hrx⟩
    have hne : h ≠ [] := by
      intro hh
      rw [hh] at hx
      simp [lastN] at hx
    unfold format_chat_history_for_llm
    simp [List.isEmpty_iff, hne, renderHistory_eq_none (lastN 6 h) x hx hrx]

/-- C7 witness: two seven-message histories differing only in their oldest
message yield the same prompt, and a history whose only message lacks a
role key degrades to the minimal prompt. -/
theorem C7_witness :
    format_chat_history_for_llm
      [⟨some "user", some "a0"⟩, ⟨some "user", some "a1"⟩,
       ⟨some "assistant", some "a2"⟩, ⟨some "user", some "a3"⟩,
       ⟨some "assistant", some "a4"⟩, ⟨some "user", some "a5"⟩,
       ⟨some "assistant", some "a6"⟩] "next"
      = format_chat_history_for_llm
      [⟨some "assistant", some "zz"⟩, ⟨some "user", some "a1"⟩,
       ⟨some "assistant", some "a2"⟩, ⟨some "user", some "a3"⟩,
       ⟨some "assistant", some "a4"⟩, ⟨some "user", some "a5"⟩,
       ⟨some "assistant", some "a6"⟩] "next"
    ∧ format_chat_history_for_llm [⟨none, some "hi"⟩] "next"
      = "User: " ++ "next" ++ "\n\nAssistant:" := by
  constructor
  · exact C7_formatter_window_and_degrade.1 _ _ "next" (by decide)
  · exact C7_formatter_window_and_degrade.2 _ "next"
      ⟨⟨none, some "hi"⟩, by decide, rfl⟩

/-- C8: the fallback catalog is fixed text, and every `Fatal` stage
outcome carries exactly the catalog message for its reason code: the
transcription and reply stages return the catalog entry for their code as
the value (apart from the distinct `empty_transcription` outcome, whose
code lies outside the four-entry catalog of this claim), and the
synthesis stage only fails with the codes `api_unavailable` / `tts_error`
whose catalog entries are the fixed messages below. -/
theorem C8_fallback_catalog :
    FALLBACK_RESPONSES "stt_error"
      = some "I\x27m having trouble hearing you right now. Could you please try again?"
    ∧ FALLBACK_RESPONSES "llm_error"
      = some "I\x27m having trouble processing your request at the moment. Please try again in a few moments."
    ∧ FALLBACK_RESPONSES "tts_error"
      = some "I understand your question but I\x27m having trouble speaking right now. Please check back soon."
    ∧ FALLBACK_RESPONSES "api_unavailable"
      = some "Some of my services are temporarily unavailable. I apologize for the inconvenience."
    ∧ (∀ (key : Option String) (p : Nat → STTAttempt) (mr : Nat),
        (transcribe_audio_with_retry key p mr).1.1 = false →
        (transcribe_audio_with_retry key p mr).1.2.2 ≠ "empty_transcription" →
        FALLBACK_RESPONSES (transcribe_audio_with_retry key p mr).1.2.2
          = some (transcribe_audio_with_retry key p mr).1.2.1)
    ∧ (∀ (client_ok : Bool) (p : Nat → LLMAttempt) (prompt : String) (mr : Nat),
        (generate_llm_response_with_retry client_ok p prompt mr).1.1 = false →
        FALLBACK_RESPONSES
            (generate_llm_response_with_retry client_ok p prompt mr).1.2.2
          = some (generate_llm_response_with_retry client_ok p prompt mr).1.2.1)
    ∧ (∀ (key : Option String) (p : Nat → TTSAttempt) (text : String) (mr : Nat),
        (generate_tts_with_retry key p text mr).1.1 = false →
        (generate_tts_with_retry key p text mr).1.2.2 = "api_unavailable"
        ∨ (generate_tts_with_retry key p text mr).1.2.2 = "tts_error") := by
  refine ⟨by decide, by decide, by decide, by decide, ?_, ?_, ?_⟩
  · intro key p mr hf hne
    unfold transcribe_audio_with_retry at *
    by_cases hk : keyPresent key = true
    · rw [if_pos hk] at *
      rcases transcribeLoop_shape p (mr + 1) 0 0 with hs | hs | ⟨t, hs⟩
      · simp [hs, FALLBACK_RESPONSES, fb_stt_error]
      · simp [hs] at hne
      · simp [hs] at hf
    · rw [if_neg hk] at *
      simp [FALLBACK_RESPONSES, fb_api_unavailable]
  · intro client_ok p prompt mr hf
    unfold generate_llm_response_with_retry at *
    by_cases hc : client_ok = true
    · rw [if_pos hc] at *
      rcases llmLoop_shape p (mr + 1) 0 0 with hs | ⟨t, hs⟩
      · simp [hs, FALLBACK_RESPONSES, fb_llm_error]
      · simp [hs] at hf
    · rw [if_neg hc] at *
      simp [FALLBACK_RESPONSES, fb_api_unavailable]
  · intro key p text mr hf
    exact (tts_fail_shape key p text mr hf).2

/-- C8 witness: exhausted-retry failures of the three stages carry
exactly the catalog entries for their reason codes. -/
theorem C8_witness :
    FALLBACK_RESPONSES
        (transcribe_audio_with_retry (some "k") (fun _ => STTAttempt.exn) 2).1.2.2
      = some (transcribe_audio_with_retry (some "k") (fun _ => STTAttempt.exn) 2).1.2.1
    ∧ FALLBACK_RESPONSES
        (generate_llm_response_with_retry true (fun _ => LLMAttempt.exn) "p" 2).1.2.2
      = some (generate_llm_response_with_retry true (fun _ => LLMAttempt.exn) "p" 2).1.2.1
    ∧ ((generate_tts_with_retry (some "k") (fun _ => TTSAttempt.exn) "t" 2).1.2.2
          = "api_unavailable"
        ∨ (generate_tts_with_retry (some "k") (fun _ => TTSAttempt.exn) "t" 2).1.2.2
          = "tts_error") := by
  refine ⟨?_, ?_, ?_⟩
  · exact C8_fallback_catalog.2.2.2.2.1 (some "k") _ 2 (by decide) (by decide)
  · exact C8_fallback_catalog.2.2.2.2.2.1 true _ "p" 2 (by decide)
  · exact C8_fallback_catalog.2.2.2.2.2.2 (some "k") _ "t" 2 (by decide)

/-- C9: for a never-used session id, fetching history returns the empty
`new_session` response (the fetch is a pure read and creates no state);
deleting the never-created session answers status `cleared`, leaves the
store unchanged, and a subsequent fetch still answers `new_session`. -/
theorem C9_new_session_idempotent (store : Store) (sid : String)
    (h : storeFind store sid = none) :
    get_chat_history store sid = ⟨sid, [], 0, "new_session"⟩
    ∧ (clear_chat_history store sid).1 = (sid, "cleared")
    ∧ (clear_chat_history store sid).2 = store
    ∧ get_chat_history (clear_chat_history store sid).2 sid
        = ⟨sid, [], 0, "new_session"⟩ := by
  have hc : storeContains store sid = false :=
    (storeContains_eq_false_iff store sid).mpr h
  refine ⟨?_, ?_, ?_, ?_⟩ <;>
    simp [get_chat_history, clear_chat_history, h, hc]

/-- C9 witness: a store holding only another session, queried at a fresh
session id. -/
theorem C9_witness :
    get_chat_history [("other", [⟨some "user", some "x"⟩])] "fresh"
      = ⟨"fresh", [], 0, "new_session"⟩
    ∧ (clear_chat_history [("other", [⟨some "user", some "x"⟩])] "fresh").1
      = ("fresh", "cleared")
    ∧ (clear_chat_history [("other", [⟨some "user", some "x"⟩])] "fresh").2
      = [("other", [⟨some "user", some "x"⟩])]
    ∧ get_chat_history
        (clear_chat_history [("other", [⟨some "user", some "x"⟩])] "fresh").2 "fresh"
      = ⟨"fresh", [], 0, "new_session"⟩ :=
  C9_new_session_idempotent [("other", [⟨some "user", some "x"⟩])] "fresh" (by decide)

/-- C10: `generate_fallback_audio` returns `None` on every input, and
consequently a failed synthesis stage (whose reason code is always
`api_unavailable` or `tts_error`) always returns a `none` audio value. -/
theorem C10_fallback_audio_is_none :
    (∀ (text error_type : String), generate_fallback_audio text error_type = none)
    ∧ (∀ (key : Option String) (p : Nat → TTSAttempt) (text : String) (mr : Nat),
        (generate_tts_with_retry key p text mr).1.1 = false →
        (generate_tts_with_retry key p text mr).1.2.1 = none
        ∧ ((generate_tts_with_retry key p text mr).1.2.2 = "api_unavailable"
            ∨ (generate_tts_with_retry key p text mr).1.2.2 = "tts_error")) :=
  ⟨fun _ _ => rfl, fun key p text mr h => tts_fail_shape key p text mr h⟩

/-- C10 witness: a synthesis run that times out on every attempt returns a
`none` audio value with code `tts_error`. -/
theorem C10_witness :
    (generate_tts_with_retry (some "k") (fun _ => TTSAttempt.timeout) "hello" 2).1.2.1
      = none
    ∧ ((generate_tts_with_retry (some "k") (fun _ => TTSAttempt.timeout) "hello" 2).1.2.2
          = "api_unavailable"
        ∨ (generate_tts_with_retry (some "k") (fun _ => TTSAttempt.timeout) "hello" 2).1.2.2
          = "tts_error") :=
  C10_fallback_audio_is_none.2 (some "k") _ "hello" 2 (by decide)
